import Mathlib

/-!
Verification of the SD-WAN site-geocoding pipeline
(`sdwan_geocoding_clean.py`).

The development is a shallow embedding of the program: JSON values reaching
the relevant fields are modelled by explicit inductive types, Python dict
records by structures of `Option`-valued fields (`none` = key absent),
the in-process geocode cache by an association list, and the network by an
oracle function supplied as a parameter.  Fallible Python code (uncaught
exceptions) is modelled with `Except`.
-/

namespace SdwanGeo

/-- A JSON scalar as it can appear in a device's latitude/longitude field:
`null`, a string, or a number (numbers are modelled by `ℚ`; the program
only ever feeds them to `float(...)` and truthiness tests). -/
inductive JVal where
  | null
  | str (s : String)
  | num (q : ℚ)
deriving DecidableEq, Repr

/-- Python truthiness of an optional JSON scalar (`device.get(k)`):
absent and `null` are falsy, a string is truthy iff non-empty,
a number is truthy iff non-zero. -/
def jTruthy : Option JVal → Bool
  | none => false
  | some .null => false
  | some (.str s) => s != ""
  | some (.num q) => decide (q ≠ 0)

/-- Value of a decimal digit sequence (left fold). -/
def digitsVal (cs : List Char) : ℕ :=
  cs.foldl (fun acc c => 10 * acc + (c.toNat - 48)) 0

/-- Split a character sequence at its first `'.'`, when there is one. -/
def splitDot : List Char → List Char × Option (List Char)
  | [] => ([], none)
  | c :: cs =>
    if c = '.' then ([], some cs)
    else
      let p := splitDot cs
      (c :: p.1, p.2)

/-- Models Python `float(s)` on plain decimal literals: optional sign,
digits, optional single decimal point; `none` when the string does not
parse this way (Python raises `ValueError` there). -/
def parseDecimal? (s : String) : Option ℚ :=
  let (neg, body) : Bool × List Char :=
    match s.data with
    | '-' :: r => (true, r)
    | '+' :: r => (false, r)
    | r => (false, r)
  match splitDot body with
  | (a, none) =>
    if !a.isEmpty && a.all Char.isDigit then
      some (if neg then -(digitsVal a : ℚ) else (digitsVal a : ℚ))
    else none
  | (a, some b) =>
    if !b.contains '.' && (!a.isEmpty || !b.isEmpty) && a.all Char.isDigit
        && b.all Char.isDigit then
      let v : ℚ := (digitsVal a : ℚ) + (digitsVal b : ℚ) / (10 ^ b.length : ℕ)
      some (if neg then -v else v)
    else none

/-- Models Python `float(v)` on the optional JSON scalar read from a device
record: numbers pass through, strings are parsed, `None`/`null` fail
(Python raises `TypeError`). -/
def pyFloatOpt : Option JVal → Option ℚ
  | some (.num q) => some q
  | some (.str s) => parseDecimal? s
  | some .null => none
  | none => none

/-- Fractional digits of `num / den` (with `num < den`), produced by the
usual long division; `fuel` bounds the recursion and is in practice large
enough for every terminating decimal. -/
def fracDigits : ℕ → ℕ → ℕ → String
  | _, _, 0 => ""
  | num, den, fuel + 1 =>
    if num = 0 then ""
    else toString (num * 10 / den) ++ fracDigits (num * 10 % den) den fuel

/-- Rendering of a rational as Python renders the corresponding float in an
f-string (`"37.7749"`, `"0.0"`, `"-122.4194"`): sign, integer part, then
fractional digits, with `".0"` when the value is integral. -/
def reprFloat (q : ℚ) : String :=
  let sign := if q < 0 then "-" else ""
  let n := q.num.natAbs
  let fr := fracDigits (n % q.den) q.den q.den
  sign ++ toString (n / q.den) ++ "." ++ (if fr = "" then "0" else fr)

/-- The `location_info` dictionary built by `reverse_geocode_nominatim`:
all seven keys are always present. -/
structure GeoLocation where
  display_name : String
  city : String
  state : String
  country : String
  country_code : String
  postcode : String
  formatted_address : String
deriving DecidableEq, Repr

/-- The `address` sub-object of a Nominatim response, restricted to the
keys the program reads; `none` = key absent, `some s` = key present with
string value `s` (possibly empty). -/
structure NomAddress where
  city : Option String := none
  town : Option String := none
  village : Option String := none
  hamlet : Option String := none
  state : Option String := none
  province : Option String := none
  country : Option String := none
  country_code : Option String := none
  postcode : Option String := none
deriving DecidableEq, Repr

/-- A parsed Nominatim response body (`response.json()`). -/
structure NomData where
  display_name : Option String := none
  address : Option NomAddress := none
deriving DecidableEq, Repr

/-- Outcome of the geocoding HTTP request:
`exn` – `requests.get` raised (transport error / timeout);
`resp status body` – a response arrived with the given status code, and
`body` is what `response.json()` would yield (`Except.error` when the body
does not parse, which raises inside the `try`). -/
inductive NetResult where
  | exn (msg : String)
  | resp (status : ℕ) (body : Except String NomData)

/-- Python `str.upper()`, modelled character-wise (the source applies it
to an ISO country code). -/
def pyUpper (s : String) : String := ⟨s.data.map Char.toUpper⟩

/-- Python `x or y` for an optional string `x` and string default `y`:
keeps `x`'s value when present and non-empty. -/
def pyOrS (x : Option String) (y : String) : String :=
  match x with
  | some s => if s = "" then y else s
  | none => y

/-- Truthiness of an optional string. -/
def truthyS : Option String → Bool
  | some s => s != ""
  | none => false

/-- First truthy element of a chain `a or b or c or ...` of optional
strings, `none` when every element is falsy. -/
def firstTruthy : List (Option String) → Option String
  | [] => none
  | x :: rest => if truthyS x then x else firstTruthy rest

/-- Model of `GeocodeService._format_address`: joins the city, state and country
components that are present and truthy with `", "`, falling back to
`"Unknown Location"` when none is. -/
def format_address (a : NomAddress) : String :=
  let city := firstTruthy [a.city, a.town, a.village, a.hamlet]
  let state := firstTruthy [a.state, a.province]
  let country := if truthyS a.country then a.country else none
  let components := [city, state, country].filterMap id
  if components = [] then "Unknown Location" else String.intercalate ", " components

/-- The empty `address` dictionary used as the default for
`data.get('address', {})`. -/
def emptyAddress : NomAddress := {}

/-- The address object of a response, `data.get('address', {})`. -/
def addrOf (data : NomData) : NomAddress := data.address.getD emptyAddress

/-- The `location_info` dictionary built from a successful (HTTP 200,
parseable) Nominatim response, with the source's fallback chains. -/
def buildLocation (data : NomData) : GeoLocation :=
  let address := addrOf data
  { display_name := data.display_name.getD "Unknown Location"
    city := pyOrS address.city (pyOrS address.town (pyOrS address.village
      (address.hamlet.getD "Unknown City")))
    state := pyOrS address.state (address.province.getD "Unknown State")
    country := address.country.getD "Unknown Country"
    country_code := pyUpper (address.country_code.getD "")
    postcode := address.postcode.getD ""
    formatted_address := format_address address }

/-- The synthetic `location_info` returned on every failure path
(lines 66–74 of the source), built purely from the raw coordinates. -/
def fallbackLocation (lat lon : ℚ) : GeoLocation :=
  { display_name := "Location at " ++ reprFloat lat ++ ", " ++ reprFloat lon
    city := "Unknown City"
    state := "Unknown State"
    country := "Unknown Country"
    country_code := ""
    postcode := ""
    formatted_address := reprFloat lat ++ ", " ++ reprFloat lon }

/-- The warning printed by the `except` block of
`reverse_geocode_nominatim`. -/
def geocodeWarning (lat lon : ℚ) (msg : String) : String :=
  "WARNING: Geocoding failed for " ++ reprFloat lat ++ "," ++ reprFloat lon ++ ": " ++ msg

/-- Association-list lookup (first matching key), modelling Python dict
access. -/
def alookup {κ α : Type} [DecidableEq κ] : List (κ × α) → κ → Option α
  | [], _ => none
  | (k, v) :: rest, key => if k = key then some v else alookup rest key

/-- State of `GeocodeService`: the cache dictionary, keyed by the exact
coordinate pair (the source keys it by the string `f"{lat},{lon}"`, which
is injective on the pairs the program forms). -/
structure GeoState where
  cache : List ((ℚ × ℚ) × GeoLocation)
deriving DecidableEq, Repr

/-- Result of one call to `reverse_geocode_nominatim`: the returned
location, the geocoder state after the call, how many network requests
were issued (0 or 1), and the warnings printed. -/
structure GeoCallResult where
  loc : GeoLocation
  state : GeoState
  networkCalls : ℕ
  warnings : List String
deriving Repr

/-- Model of `GeocodeService.reverse_geocode_nominatim`, with the network modelled
by the oracle `net`: cache check first; on a miss, one request whose
outcome `net lat lon` is either an exception (caught: warning + synthetic
fallback, not cached), a 200 response whose body parses (cached and
returned), a 200 response whose body raises on parse (caught: warning +
fallback, not cached), or a non-200 response (fallback, no warning, not
cached).  The function is total: no exception escapes. -/
def reverse_geocode_nominatim (net : ℚ → ℚ → NetResult) (st : GeoState)
    (lat lon : ℚ) : GeoCallResult :=
  match alookup st.cache (lat, lon) with
  | some cached => ⟨cached, st, 0, []⟩
  | none =>
    match net lat lon with
    | .exn msg => ⟨fallbackLocation lat lon, st, 1, [geocodeWarning lat lon msg]⟩
    | .resp status body =>
      if status = 200 then
        match body with
        | .error msg => ⟨fallbackLocation lat lon, st, 1, [geocodeWarning lat lon msg]⟩
        | .ok data =>
          let g := buildLocation data
          ⟨g, ⟨st.cache ++ [((lat, lon), g)]⟩, 1, []⟩
      else ⟨fallbackLocation lat lon, st, 1, []⟩

/-- A raw device record of the `/dataservice/device` response, restricted
to the keys the program reads; `none` = key absent. -/
structure RawDevice where
  site_id : Option String := none
  host_name : Option String := none
  system_ip : Option String := none
  device_type : Option String := none
  device_model : Option String := none
  reachability : Option String := none
  version : Option String := none
  platform : Option String := none
  latitude : Option JVal := none
  longitude : Option JVal := none
  isDeviceGeoData : Option Bool := none
deriving DecidableEq, Repr

/-- A per-device TLOC summary entry (`tloc_by_system_ip` values). -/
structure TlocInfo where
  color : String
  control_connections_up : ℤ
  bfd_sessions_up : ℤ
deriving DecidableEq, Repr

/-- A raw TLOC record of the `/dataservice/device/tloc` response. -/
structure RawTloc where
  system_ip : Option String := none
  color : Option String := none
  controlConnectionsUp : Option ℤ := none
  bfdSessionsUp : Option ℤ := none
deriving DecidableEq, Repr

/-- The `location_info` dictionary attached to a device that carries
coordinates (latitude, longitude, GPS-source flag, geocoded result). -/
structure LocationInfo where
  latitude : ℚ
  longitude : ℚ
  is_device_gps : Bool
  geocoded : GeoLocation
deriving DecidableEq, Repr

/-- The normalized `device_info` dictionary built for every device;
`location` and `tloc_info` are the two optional keys the source adds
conditionally. -/
structure DeviceInfo where
  hostname : String
  system_ip : String
  device_type : String
  device_model : String
  reachability : String
  version : String
  platform : String
  location : Option LocationInfo := none
  tloc_info : Option (List TlocInfo) := none
deriving DecidableEq, Repr

/-- A `sites[site_id]` record. -/
structure Site where
  devices : List DeviceInfo
  location : Option LocationInfo
  geocoded_location : Option GeoLocation
  site_type : String
deriving DecidableEq, Repr

/-- The fresh record produced by the `defaultdict` factory. -/
def defaultSite : Site :=
  { devices := [], location := none, geocoded_location := none, site_type := "unknown" }

/-- Read access `sites[site_id]`: existing entry or the default-factory
record. -/
def getSite (m : List (String × Site)) (k : String) : Site :=
  (alookup m k).getD defaultSite

/-- Assignment `sites[site_id] = v`: replaces the first entry with key `k`, or
appends a new entry (dict insertion order). -/
def setSite : List (String × Site) → String → Site → List (String × Site)
  | [], k, v => [(k, v)]
  | (k', v') :: rest, k, v =>
    if k' = k then (k, v) :: rest else (k', v') :: setSite rest k v

/-- State threaded through the device loop of
`extract_sites_with_geocoding`: the `sites` mapping (insertion-ordered)
and the geocoder. -/
structure AggState where
  sites : List (String × Site)
  geo : GeoState
deriving Repr

/-- Initial state: empty `sites` mapping, empty geocode cache. -/
def initAgg : AggState := ⟨[], ⟨[]⟩⟩

/-- The `device_info` dictionary of lines 167–175: every string field
defaults to `"N/A"` when the raw key is absent. -/
def baseDeviceInfo (device : RawDevice) : DeviceInfo :=
  { hostname := device.host_name.getD "N/A"
    system_ip := device.system_ip.getD "N/A"
    device_type := device.device_type.getD "N/A"
    device_model := device.device_model.getD "N/A"
    reachability := device.reachability.getD "N/A"
    version := device.version.getD "N/A"
    platform := device.platform.getD "N/A" }

/-- Test `device.get('device-type') in ['vmanage', 'vsmart', 'vbond']`. -/
def isControlDevice (device : RawDevice) : Bool :=
  device.device_type == some "vmanage" || device.device_type == some "vsmart"
    || device.device_type == some "vbond"

/-- The site-type update of lines 200–204: a control-plane device forces
`"control_plane"`; otherwise a site still `"unknown"` becomes
`"branch"`; otherwise the type is left alone. -/
def classifySiteType (device : RawDevice) (s : Site) : Site :=
  if isControlDevice device then { s with site_type := "control_plane" }
  else if s.site_type = "unknown" then { s with site_type := "branch" }
  else s

/-- Line 206: append the normalized device to the site's device list. -/
def appendDevice (s : Site) (d : DeviceInfo) : Site :=
  { s with devices := s.devices ++ [d] }

/-- One iteration of the device loop (lines 162–206).  `Except.error`
models an uncaught Python exception: `float(...)` on a truthy but
unparseable latitude/longitude raises and aborts the whole extraction. -/
def processDevice (net : ℚ → ℚ → NetResult) (st : AggState) (device : RawDevice) :
    Except String AggState :=
  let site_id := device.site_id.getD "unknown"
  if jTruthy device.latitude && jTruthy device.longitude then
    match pyFloatOpt device.latitude with
    | none => .error "ValueError: could not convert string to float"
    | some lat =>
      match pyFloatOpt device.longitude with
      | none => .error "ValueError: could not convert string to float"
      | some lon =>
        let r := reverse_geocode_nominatim net st.geo lat lon
        let location_info : LocationInfo :=
          { latitude := lat, longitude := lon
            is_device_gps := device.isDeviceGeoData.getD false
            geocoded := r.loc }
        let s0 := getSite st.sites site_id
        let s1 :=
          if s0.location.isNone then
            { s0 with location := some location_info, geocoded_location := some r.loc }
          else s0
        let dinfo := { baseDeviceInfo device with location := some location_info }
        .ok ⟨setSite st.sites site_id (appendDevice (classifySiteType device s1) dinfo),
             r.state⟩
  else
    .ok ⟨setSite st.sites site_id
          (appendDevice (classifySiteType device (getSite st.sites site_id))
            (baseDeviceInfo device)),
         st.geo⟩

/-- The whole device loop, in input order. -/
def processDevices (net : ℚ → ℚ → NetResult) :
    AggState → List RawDevice → Except String AggState
  | st, [] => .ok st
  | st, d :: ds =>
    match processDevice net st d with
    | .error e => .error e
    | .ok st' => processDevices net st' ds

/-- Polymorphic `defaultdict(list)`-style append used for
`tloc_by_system_ip` (lines 209–220) and the summary groupings: append to
the first entry with the key, or create a `[v]` entry at the end. -/
def groupAppend {α : Type} : List (String × List α) → String → α → List (String × List α)
  | [], k, v => [(k, [v])]
  | (k', vs) :: rest, k, v =>
    if k' = k then (k', vs ++ [v]) :: rest else (k', vs) :: groupAppend rest k v

/-- One TLOC summary entry (lines 216–220), with per-field defaults. -/
def mkTlocInfo (t : RawTloc) : TlocInfo :=
  { color := t.color.getD "N/A"
    control_connections_up := t.controlConnectionsUp.getD 0
    bfd_sessions_up := t.bfdSessionsUp.getD 0 }

/-- The JSON responses `{ "data": [...] }` of the two inventory
endpoints; `data?` is `none` when the `'data'` key is absent. -/
structure DevJson where
  data? : Option (List RawDevice)
deriving Repr

/-- TLOC endpoint response body. -/
structure TlocJson where
  data? : Option (List RawTloc)
deriving Repr

/-- Index `tloc_by_system_ip` (lines 209–220): entries without a truthy
`system-ip` are skipped. -/
def buildTlocIndex (tloc_data : Option TlocJson) : List (String × List TlocInfo) :=
  match tloc_data with
  | none => []
  | some tj =>
    match tj.data? with
    | none => []
    | some tlocs =>
      tlocs.foldl
        (fun idx t =>
          match t.system_ip with
          | some ip => if ip != "" then groupAppend idx ip (mkTlocInfo t) else idx
          | none => idx)
        []

/-- Lines 222–227: attach the matching TLOC list to every device whose
system IP appears in the index. -/
def attachTloc (sites : List (String × Site)) (idx : List (String × List TlocInfo)) :
    List (String × Site) :=
  sites.map fun p =>
    (p.1,
     { p.2 with
       devices := p.2.devices.map fun d =>
         match alookup idx d.system_ip with
         | some l => { d with tloc_info := some l }
         | none => d })

/-- Outcome of one HTTP call of the controller session: `exn` – the
`requests` call raised (transport error, no try/except around it in the
source); `resp status body` – a response with the given status code,
`body` being what further processing of the response would yield. -/
inductive HttpResult (β : Type) where
  | exn (msg : String)
  | resp (status : ℕ) (body : β)

/-- Model of `SDWANSiteExtractorWithGeo.authenticate`, with the two HTTP calls
supplied as oracles.  Returns `(True, token)` when both calls have status
200 (the token is installed as a session header), `(False, none)`
otherwise; an exception raised by either call is uncaught
(`Except.error`). The token request is only issued when the login call
returned 200. -/
def authenticate (login : HttpResult Unit) (token : HttpResult String) :
    Except String (Bool × Option String) :=
  match login with
  | .exn m => .error m
  | .resp s _ =>
    if s = 200 then
      match token with
      | .exn m => .error m
      | .resp s2 t => if s2 = 200 then .ok (true, some t) else .ok (false, none)
    else .ok (false, none)

/-- Model of `get_devices`: `response.json() if response.status_code == 200 else
None`; the body oracle is `Except.error` when `.json()` would raise. -/
def get_devices (r : HttpResult (Except String DevJson)) : Except String (Option DevJson) :=
  match r with
  | .exn m => .error m
  | .resp s body =>
    if s = 200 then
      match body with
      | .error m => .error m
      | .ok j => .ok (some j)
    else .ok none

/-- Model of `get_tloc_data`: same contract as `get_devices` on the TLOC
endpoint. -/
def get_tloc_data (r : HttpResult (Except String TlocJson)) :
    Except String (Option TlocJson) :=
  match r with
  | .exn m => .error m
  | .resp s body =>
    if s = 200 then
      match body with
      | .error m => .error m
      | .ok j => .ok (some j)
    else .ok none

/-- Model of `extract_sites_with_geocoding` (lines 140–229): fetch devices
(`None` when the fetch failed or the response has no `'data'` key), fetch
TLOC data, run the device loop, then attach TLOC summaries.  The outer
`Except` is an uncaught Python exception, the inner `Option` is the
source's `return None`. -/
def extract_sites_with_geocoding (net : ℚ → ℚ → NetResult) (gst : GeoState)
    (devFetch : HttpResult (Except String DevJson))
    (tlocFetch : HttpResult (Except String TlocJson)) :
    Except String (Option (List (String × Site))) :=
  match get_devices devFetch with
  | .error m => .error m
  | .ok none => .ok none
  | .ok (some dj) =>
    match dj.data? with
    | none => .ok none
    | some devs =>
      match get_tloc_data tlocFetch with
      | .error m => .error m
      | .ok tloc_data =>
        match processDevices net ⟨[], gst⟩ devs with
        | .error m => .error m
        | .ok st => .ok (some (attachTloc st.sites (buildTlocIndex tloc_data)))

/-- What a run of `main` does, abstracted to the control flow that decides
the exit code: `crash` – an uncaught exception (Python exits non-zero);
`authFailed` – `sys.exit(1)` after a failed authentication;
`extractFailed` – "ERROR: Failed to extract site hierarchy" printed, `main`
returns normally; `reported` – full report, summary and JSON export. -/
inductive MainOutcome where
  | crash (msg : String)
  | authFailed
  | extractFailed
  | reported (sites : List (String × Site))

/-- Process exit code of each outcome (Python exits 1 on `sys.exit(1)`
and on an uncaught exception, 0 otherwise). -/
def exitCodeOf : MainOutcome → ℕ
  | .crash _ => 1
  | .authFailed => 1
  | .extractFailed => 0
  | .reported _ => 0

/-- Model of `main` (lines 382–423): authenticate, extract, and report; note that
the `sites` falsiness test sends both a `None` result and an empty
mapping to the non-fatal "ERROR: Failed to extract site hierarchy"
branch, after which `main` returns normally. -/
def mainModel (login : HttpResult Unit) (token : HttpResult String)
    (devFetch : HttpResult (Except String DevJson))
    (tlocFetch : HttpResult (Except String TlocJson))
    (net : ℚ → ℚ → NetResult) : MainOutcome :=
  match authenticate login token with
  | .error m => .crash m
  | .ok (false, _) => .authFailed
  | .ok (true, _) =>
    match extract_sites_with_geocoding net ⟨[]⟩ devFetch tlocFetch with
    | .error m => .crash m
    | .ok none => .extractFailed
    | .ok (some sites) =>
      if sites.isEmpty then .extractFailed else .reported sites

/-- Rendered content of `generate_location_summary` (lines 298–322):
the two headline group counts and, per category, the group lines in the
order they are printed, each a label paired with the `"Site {id}"`
strings joined on that line. -/
structure LocationSummary where
  countryCount : ℕ
  cityCount : ℕ
  countryLines : List (String × List String)
  cityLines : List (String × List String)
deriving Repr

/-- Sites that pass the `if site_info['geocoded_location']:` filter,
paired with their geocoded location, in mapping order. -/
def geocodedPairs (sites : List (String × Site)) : List (String × GeoLocation) :=
  sites.filterMap fun p => p.2.geocoded_location.map fun g => (p.1, g)

/-- The `defaultdict(list)` grouping of labelled values, in first-encounter
key order. -/
def groupFold (xs : List (String × String)) : List (String × List String) :=
  xs.foldl (fun acc p => groupAppend acc p.1 p.2) []

/-- Model of `sorted(d.items())` for a dict with (unique) string keys: sort the
entries lexicographically by key. -/
def sortByLabel (xs : List (String × List String)) : List (String × List String) :=
  List.insertionSort (fun a b => a.1 ≤ b.1) xs

/-- Model of `generate_location_summary`: group site labels by country and by the
`f"{city}, {state}, {country}"` string, print the number of groups per
category, then each group (sorted by label) as the label followed by the
comma-joined site labels in encounter order. -/
def generate_location_summary (sites : List (String × Site)) : LocationSummary :=
  let geos := geocodedPairs sites
  let countries := groupFold (geos.map fun p => (p.2.country, "Site " ++ p.1))
  let cities := groupFold (geos.map fun p =>
    (p.2.city ++ ", " ++ p.2.state ++ ", " ++ p.2.country, "Site " ++ p.1))
  { countryCount := countries.length
    cityCount := cities.length
    countryLines := sortByLabel countries
    cityLines := sortByLabel cities }

/-! Concrete fixtures used by witnesses and counterexamples. -/

/-- A network oracle that always times out. -/
def netTimeout : ℚ → ℚ → NetResult := fun _ _ => .exn "timeout"

/-- Fixture: a branch-role device of site 200. -/
def devBranchA : RawDevice :=
  { site_id := some "200", host_name := some "r1", device_type := some "vedge" }

/-- Fixture: a control-role device of site 200. -/
def devControl : RawDevice :=
  { site_id := some "200", host_name := some "vm1", device_type := some "vmanage" }

/-- Fixture: a second branch-role device of site 200. -/
def devBranchB : RawDevice :=
  { site_id := some "200", host_name := some "r2", device_type := some "vedge" }

/-- A network oracle that always answers with a non-success status. -/
def net404 : ℚ → ℚ → NetResult := fun _ _ => .resp 404 (.ok {})

/-- A Nominatim response with a display name but no `address` object. -/
def bareData : NomData := { display_name := some "somewhere" }

/-- A network oracle returning a 200 response whose address object is
absent. -/
def netOkBare : ℚ → ℚ → NetResult := fun _ _ => .resp 200 (.ok bareData)

/-- A fully-populated Nominatim response fixture. -/
def sfData : NomData :=
  { display_name := some "San Francisco, California, USA"
    address := some
      { city := some "San Francisco", state := some "California"
        country := some "United States", country_code := some "us"
        postcode := some "94103" } }

/-- A network oracle that always succeeds with `sfData`. -/
def netSF : ℚ → ℚ → NetResult := fun _ _ => .resp 200 (.ok sfData)

/-- Fixture: a device of site 100 carrying no coordinate fields. -/
def devNoCoords : RawDevice := { site_id := some "100", host_name := some "r9" }

/-- Fixture: a device whose latitude is a truthy, non-numeric string. -/
def devBadLat : RawDevice :=
  { site_id := some "300", host_name := some "bad"
    latitude := some (.str "abc"), longitude := some (.str "1") }

/-- Fixture: a device with well-formed numeric coordinates. -/
def devGoodCoords : RawDevice :=
  { site_id := some "300", host_name := some "ok"
    latitude := some (.num 37), longitude := some (.num (-122)) }

/-- Fixture: a device whose latitude is present but zero (falsy). -/
def devZeroLat : RawDevice :=
  { site_id := some "400", host_name := some "eq"
    latitude := some (.num 0), longitude := some (.num 37) }

/-- A geocoded location whose country resolves to `"X"`. -/
def geoX : GeoLocation :=
  buildLocation { display_name := some "X", address := some { country := some "X" } }

/-- Two geocoded sites of the same country, encountered in the order
`"B"`, `"A"`. -/
def cexSites : List (String × Site) :=
  [("B", { devices := [], location := none, geocoded_location := some geoX,
           site_type := "branch" }),
   ("A", { devices := [], location := none, geocoded_location := some geoX,
           site_type := "branch" })]

/-- A successful login response. -/
def loginOk : HttpResult Unit := .resp 200 ()

/-- A successful token response. -/
def tokenOk : HttpResult String := .resp 200 "tok"

/-- A failed (HTTP 500) device-inventory fetch. -/
def dev500 : HttpResult (Except String DevJson) := .resp 500 (.ok ⟨none⟩)

/-- A failed (HTTP 500) TLOC fetch. -/
def tloc500 : HttpResult (Except String TlocJson) := .resp 500 (.ok ⟨none⟩)

/-- The site produced by processing `devNoCoords` alone. -/
def c2Site : Site :=
  { devices := [baseDeviceInfo devNoCoords], location := none,
    geocoded_location := none, site_type := "branch" }

/-- Final aggregation state of the run
`[devBranchA, devControl, devBranchB]` (no coordinates involved). -/
def c1FinalState : AggState :=
  ⟨[("200",
     { devices := [baseDeviceInfo devBranchA, baseDeviceInfo devControl,
                   baseDeviceInfo devBranchB]
       location := none, geocoded_location := none
       site_type := "control_plane" })],
   ⟨[]⟩⟩

/-- A device's coordinate fields, when truthy, parse as floats — the
condition under which `float(...)` cannot raise for it. -/
def coordsParseOk (d : RawDevice) : Prop :=
  (jTruthy d.latitude && jTruthy d.longitude) = true →
    (pyFloatOpt d.latitude).isSome = true ∧ (pyFloatOpt d.longitude).isSome = true

/-! ### Helper lemmas -/

theorem alookup_setSite_self (m : List (String × Site)) (k : String) (v : Site) :
    alookup (setSite m k v) k = some v := by
  induction m with
  | nil => simp [setSite, alookup]
  | cons p rest ih =>
    obtain ⟨k', v'⟩ := p
    by_cases hk : k' = k
    · simp [setSite, hk, alookup]
    · simp [setSite, hk, alookup, ih]

theorem alookup_setSite_ne (m : List (String × Site)) (k k' : String) (v : Site)
    (h : k ≠ k') : alookup (setSite m k v) k' = alookup m k' := by
  induction m with
  | nil => simp [setSite, alookup, h]
  | cons p rest ih =>
    obtain ⟨k₀, v₀⟩ := p
    by_cases hk : k₀ = k
    · subst hk
      simp [setSite, alookup, h]
    · simp [setSite, hk, alookup, ih]

theorem getSite_setSite_self (m : List (String × Site)) (k : String) (v : Site) :
    getSite (setSite m k v) k = v := by
  simp [getSite, alookup_setSite_self]

theorem getSite_setSite_ne (m : List (String × Site)) (k k' : String) (v : Site)
    (h : k ≠ k') : getSite (setSite m k v) k' = getSite m k' := by
  simp [getSite, alookup_setSite_ne m k k' v h]

theorem classify_site_type (d : RawDevice) (s : Site) :
    (classifySiteType d s).site_type =
      if isControlDevice d then "control_plane"
      else if s.site_type = "unknown" then "branch" else s.site_type := by
  unfold classifySiteType
  split
  · rfl
  · split <;> rfl

theorem classify_location (d : RawDevice) (s : Site) :
    (classifySiteType d s).location = s.location := by
  unfold classifySiteType
  split
  · rfl
  · split <;> rfl

theorem classify_geocoded (d : RawDevice) (s : Site) :
    (classifySiteType d s).geocoded_location = s.geocoded_location := by
  unfold classifySiteType
  split
  · rfl
  · split <;> rfl

theorem classify_devices (d : RawDevice) (s : Site) :
    (classifySiteType d s).devices = s.devices := by
  unfold classifySiteType
  split
  · rfl
  · split <;> rfl

/-- Shape of every successful `processDevice` step: the device's site is
replaced by an update of its current record (location possibly adopted,
type reclassified, device appended), everything else untouched. -/
theorem processDevice_ok_shape (net : ℚ → ℚ → NetResult) (st : AggState)
    (device : RawDevice) (st' : AggState)
    (h : processDevice net st device = .ok st') :
    ∃ (s1 : Site) (dinfo : DeviceInfo),
      st'.sites = setSite st.sites (device.site_id.getD "unknown")
        (appendDevice (classifySiteType device s1) dinfo) ∧
      s1.site_type = (getSite st.sites (device.site_id.getD "unknown")).site_type ∧
      s1.devices = (getSite st.sites (device.site_id.getD "unknown")).devices := by
  unfold processDevice at h
  by_cases hb : (jTruthy device.latitude && jTruthy device.longitude) = true
  · rw [if_pos hb] at h
    cases hlat : pyFloatOpt device.latitude with
    | none => rw [hlat] at h; exact absurd h (by simp)
    | some lat =>
      cases hlon : pyFloatOpt device.longitude with
      | none => rw [hlat, hlon] at h; exact absurd h (by simp)
      | some lon =>
        rw [hlat, hlon] at h
        simp only [Except.ok.injEq] at h
        subst h
        refine ⟨_, _, rfl, ?_, ?_⟩ <;> split <;> rfl
  · rw [if_neg hb] at h
    simp only [Except.ok.injEq] at h
    subst h
    exact ⟨_, _, rfl, rfl, rfl⟩

/-- Effect of one device-loop step on all site types. -/
theorem processDevice_site_type (net : ℚ → ℚ → NetResult) (st : AggState)
    (device : RawDevice) (st' : AggState)
    (h : processDevice net st device = .ok st') (k : String) :
    (getSite st'.sites k).site_type =
      if device.site_id.getD "unknown" = k then
        (classifySiteType device (getSite st.sites k)).site_type
      else (getSite st.sites k).site_type := by
  obtain ⟨s1, dinfo, hsites, htype, -⟩ := processDevice_ok_shape net st device st' h
  by_cases hk : device.site_id.getD "unknown" = k
  · subst hk
    rw [hsites, if_pos rfl, getSite_setSite_self]
    show (classifySiteType device s1).site_type = _
    rw [classify_site_type, classify_site_type, htype]
  · rw [hsites, if_neg hk, getSite_setSite_ne _ _ _ _ hk]

/-- Splitting the device loop across list concatenation. -/
theorem processDevices_append (net : ℚ → ℚ → NetResult) (st : AggState)
    (l1 l2 : List RawDevice) :
    processDevices net st (l1 ++ l2) =
      match processDevices net st l1 with
      | .error e => .error e
      | .ok st' => processDevices net st' l2 := by
  induction l1 generalizing st with
  | nil => simp [processDevices]
  | cons d ds ih =>
    cases h : processDevice net st d with
    | error e => simp [processDevices, h]
    | ok st' => simp [processDevices, h, ih]

/-- A site once classified `control_plane` keeps that type through any
further run of the device loop. -/
theorem processDevices_preserve_control (net : ℚ → ℚ → NetResult)
    (st : AggState) (ds : List RawDevice) (stF : AggState) (k : String)
    (h : processDevices net st ds = .ok stF)
    (hc : (getSite st.sites k).site_type = "control_plane") :
    (getSite stF.sites k).site_type = "control_plane" := by
  induction ds generalizing st with
  | nil =>
    unfold processDevices at h
    cases h
    exact hc
  | cons d rest ih =>
    unfold processDevices at h
    cases hd : processDevice net st d with
    | error e => rw [hd] at h; exact absurd h (by simp)
    | ok st' =>
      rw [hd] at h
      refine ih st' h ?_
      rw [processDevice_site_type net st d st' hd k]
      split
      · rw [classify_site_type, hc]
        split
        · rfl
        · simp
      · exact hc

theorem appendDevice_location (s : Site) (d : DeviceInfo) :
    (appendDevice s d).location = s.location := rfl

theorem appendDevice_geocoded (s : Site) (d : DeviceInfo) :
    (appendDevice s d).geocoded_location = s.geocoded_location := rfl

theorem appendDevice_devices (s : Site) (d : DeviceInfo) :
    (appendDevice s d).devices = s.devices ++ [d] := rfl

/-- The representative-location invariant: a site's `location` is the
location of the first member device that has one (in list order), and its
`geocoded_location` is that location's geocoded form. -/
def locInv (s : Site) : Prop :=
  s.location = (s.devices.filterMap DeviceInfo.location).head? ∧
  s.geocoded_location = s.location.map LocationInfo.geocoded

/-- One device-loop step preserves the representative-location invariant
at every key. -/
theorem processDevice_locInv (net : ℚ → ℚ → NetResult) (st : AggState)
    (device : RawDevice) (st' : AggState)
    (h : processDevice net st device = .ok st')
    (hinv : ∀ k, locInv (getSite st.sites k)) :
    ∀ k, locInv (getSite st'.sites k) := by
  intro k
  unfold processDevice at h
  by_cases hb : (jTruthy device.latitude && jTruthy device.longitude) = true
  · rw [if_pos hb] at h
    cases hlat : pyFloatOpt device.latitude with
    | none => rw [hlat] at h; exact absurd h (by simp)
    | some lat =>
      cases hlon : pyFloatOpt device.longitude with
      | none => rw [hlat, hlon] at h; exact absurd h (by simp)
      | some lon =>
        rw [hlat, hlon] at h
        simp only [Except.ok.injEq] at h
        subst h
        by_cases hk : device.site_id.getD "unknown" = k
        · subst hk
          dsimp only
          rw [getSite_setSite_self]
          obtain ⟨h1, h2⟩ := hinv (device.site_id.getD "unknown")
          constructor
          · rw [appendDevice_location, classify_location, appendDevice_devices,
              classify_devices, List.filterMap_append]
            by_cases hno :
                (getSite st.sites (device.site_id.getD "unknown")).location.isNone = true
            · rw [if_pos hno]
              have hnone : (getSite st.sites (device.site_id.getD "unknown")).location
                  = none := Option.isNone_iff_eq_none.mp hno
              rw [hnone] at h1
              have hemp := List.head?_eq_none_iff.mp h1.symm
              rw [hemp]
              rfl
            · rw [if_neg hno]
              cases hL : (getSite st.sites (device.site_id.getD "unknown")).location with
              | none => rw [hL] at hno; exact (hno rfl).elim
              | some l =>
                rw [hL] at h1
                cases hfm : (getSite st.sites
                    (device.site_id.getD "unknown")).devices.filterMap DeviceInfo.location with
                | nil => rw [hfm] at h1; exact absurd h1 (by simp)
                | cons a t =>
                  rw [hfm] at h1
                  rw [List.cons_append, List.head?_cons]
                  simpa using h1
          · rw [appendDevice_geocoded, classify_geocoded, appendDevice_location,
              classify_location]
            by_cases hno :
                (getSite st.sites (device.site_id.getD "unknown")).location.isNone = true
            · rw [if_pos hno]
              rfl
            · rw [if_neg hno]
              exact h2
        · dsimp only
          rw [getSite_setSite_ne _ _ _ _ hk]
          exact hinv k
  · rw [if_neg hb] at h
    simp only [Except.ok.injEq] at h
    subst h
    by_cases hk : device.site_id.getD "unknown" = k
    · subst hk
      dsimp only
      rw [getSite_setSite_self]
      obtain ⟨h1, h2⟩ := hinv (device.site_id.getD "unknown")
      constructor
      · rw [appendDevice_location, classify_location, appendDevice_devices,
          classify_devices, List.filterMap_append]
        have hbase : [baseDeviceInfo device].filterMap DeviceInfo.location = [] := by
          simp [baseDeviceInfo]
        rw [hbase, List.append_nil]
        exact h1
      · rw [appendDevice_geocoded, classify_geocoded, appendDevice_location,
          classify_location]
        exact h2
    · dsimp only
      rw [getSite_setSite_ne _ _ _ _ hk]
      exact hinv k

/-- The device loop preserves the representative-location invariant. -/
theorem processDevices_locInv (net : ℚ → ℚ → NetResult) (st : AggState)
    (ds : List RawDevice) (stF : AggState)
    (h : processDevices net st ds = .ok stF)
    (hinv : ∀ k, locInv (getSite st.sites k)) :
    ∀ k, locInv (getSite stF.sites k) := by
  induction ds generalizing st with
  | nil =>
    unfold processDevices at h
    cases h
    exact hinv
  | cons d rest ih =>
    unfold processDevices at h
    cases hd : processDevice net st d with
    | error e => rw [hd] at h; exact absurd h (by simp)
    | ok st' =>
      rw [hd] at h
      exact ih st' h (processDevice_locInv net st d st' hd hinv)

/-- A site that already has a representative location keeps it (and its
geocoded form) across any later device-loop step. -/
theorem processDevice_keeps_location (net : ℚ → ℚ → NetResult) (st : AggState)
    (device : RawDevice) (st' : AggState) (k : String) (li : LocationInfo)
    (h : processDevice net st device = .ok st')
    (hsome : (getSite st.sites k).location = some li) :
    (getSite st'.sites k).location = some li ∧
    (getSite st'.sites k).geocoded_location = (getSite st.sites k).geocoded_location := by
  unfold processDevice at h
  by_cases hb : (jTruthy device.latitude && jTruthy device.longitude) = true
  · rw [if_pos hb] at h
    cases hlat : pyFloatOpt device.latitude with
    | none => rw [hlat] at h; exact absurd h (by simp)
    | some lat =>
      cases hlon : pyFloatOpt device.longitude with
      | none => rw [hlat, hlon] at h; exact absurd h (by simp)
      | some lon =>
        rw [hlat, hlon] at h
        simp only [Except.ok.injEq] at h
        subst h
        by_cases hk : device.site_id.getD "unknown" = k
        · subst hk
          dsimp only
          rw [getSite_setSite_self, appendDevice_location, classify_location,
            appendDevice_geocoded, classify_geocoded]
          have hnc : ¬((getSite st.sites
              (device.site_id.getD "unknown")).location.isNone = true) := by
            rw [hsome]
            simp
          rw [if_neg hnc]
          exact ⟨hsome, rfl⟩
        · dsimp only
          rw [getSite_setSite_ne _ _ _ _ hk]
          exact ⟨hsome, rfl⟩
  · rw [if_neg hb] at h
    simp only [Except.ok.injEq] at h
    subst h
    by_cases hk : device.site_id.getD "unknown" = k
    · subst hk
      dsimp only
      rw [getSite_setSite_self, appendDevice_location, classify_location,
        appendDevice_geocoded, classify_geocoded]
      exact ⟨hsome, rfl⟩
    · dsimp only
      rw [getSite_setSite_ne _ _ _ _ hk]
      exact ⟨hsome, rfl⟩

theorem alookup_append_left {κ α : Type} [DecidableEq κ] (l1 l2 : List (κ × α))
    (k : κ) (g : α) (h : alookup l1 k = some g) : alookup (l1 ++ l2) k = some g := by
  induction l1 with
  | nil => exact absurd h (by simp [alookup])
  | cons p rest ih =>
    obtain ⟨k', v'⟩ := p
    by_cases hk : k' = k
    · subst hk
      simp only [alookup, if_pos rfl] at h ⊢
      exact h
    · simp only [alookup, if_neg hk] at h ⊢
      exact ih h

theorem alookup_append_none {κ α : Type} [DecidableEq κ] (l1 l2 : List (κ × α))
    (k : κ) (h : alookup l1 k = none) : alookup (l1 ++ l2) k = alookup l2 k := by
  induction l1 with
  | nil => simp
  | cons p rest ih =>
    obtain ⟨k', v'⟩ := p
    by_cases hk : k' = k
    · subst hk
      simp [alookup] at h
    · simp only [alookup, if_neg hk] at h ⊢
      exact ih h

/-- The geocode cache only ever grows: an entry present before a call to
`reverse_geocode_nominatim` is present, unchanged, after it. -/
theorem reverse_geocode_cache_mono (net : ℚ → ℚ → NetResult) (st : GeoState)
    (la lo : ℚ) (key : ℚ × ℚ) (g : GeoLocation)
    (h : alookup st.cache key = some g) :
    alookup (reverse_geocode_nominatim net st la lo).state.cache key = some g := by
  unfold reverse_geocode_nominatim
  cases hm : alookup st.cache (la, lo) with
  | some cached => exact h
  | none =>
    cases net la lo with
    | exn msg => exact h
    | resp status body =>
      by_cases hs : status = 200
      · cases body with
        | error msg =>
          subst hs
          exact h
        | ok data =>
          subst hs
          exact alookup_append_left st.cache _ key g h
      · simp only [if_neg hs]
        exact h

/-- One device-loop step never removes or changes a geocode cache
entry. -/
theorem processDevice_cache_mono (net : ℚ → ℚ → NetResult) (st : AggState)
    (device : RawDevice) (st' : AggState) (key : ℚ × ℚ) (g : GeoLocation)
    (h : processDevice net st device = .ok st')
    (hc : alookup st.geo.cache key = some g) :
    alookup st'.geo.cache key = some g := by
  unfold processDevice at h
  by_cases hb : (jTruthy device.latitude && jTruthy device.longitude) = true
  · rw [if_pos hb] at h
    cases hlat : pyFloatOpt device.latitude with
    | none => rw [hlat] at h; exact absurd h (by simp)
    | some lat =>
      cases hlon : pyFloatOpt device.longitude with
      | none => rw [hlat, hlon] at h; exact absurd h (by simp)
      | some lon =>
        rw [hlat, hlon] at h
        simp only [Except.ok.injEq] at h
        subst h
        exact reverse_geocode_cache_mono net st.geo lat lon key g hc
  · rw [if_neg hb] at h
    simp only [Except.ok.injEq] at h
    subst h
    exact hc

/-- The whole device loop never removes or changes a geocode cache
entry. -/
theorem processDevices_cache_mono (net : ℚ → ℚ → NetResult) (st : AggState)
    (ds : List RawDevice) (stF : AggState) (key : ℚ × ℚ) (g : GeoLocation)
    (h : processDevices net st ds = .ok stF)
    (hc : alookup st.geo.cache key = some g) :
    alookup stF.geo.cache key = some g := by
  induction ds generalizing st with
  | nil =>
    unfold processDevices at h
    cases h
    exact hc
  | cons d rest ih =>
    unfold processDevices at h
    cases hd : processDevice net st d with
    | error e => rw [hd] at h; exact absurd h (by simp)
    | ok st' =>
      rw [hd] at h
      exact ih st' h (processDevice_cache_mono net st d st' key g hd hc)

/-- A device whose truthy coordinates parse cannot make its loop
iteration raise. -/
theorem processDevice_ok_of_parse (net : ℚ → ℚ → NetResult) (st : AggState)
    (device : RawDevice) (hok : coordsParseOk device) :
    ∃ st', processDevice net st device = .ok st' := by
  unfold processDevice
  by_cases hb : (jTruthy device.latitude && jTruthy device.longitude) = true
  · obtain ⟨h1, h2⟩ := hok hb
    rw [if_pos hb]
    cases hlat : pyFloatOpt device.latitude with
    | none => rw [hlat] at h1; exact absurd h1 (by simp)
    | some lat =>
      cases hlon : pyFloatOpt device.longitude with
      | none => rw [hlon] at h2; exact absurd h2 (by simp)
      | some lon => exact ⟨_, rfl⟩
  · rw [if_neg hb]
    exact ⟨_, rfl⟩

/-- The whole device loop succeeds when every device's truthy coordinates
parse. -/
theorem processDevices_ok_of_parse (net : ℚ → ℚ → NetResult) (st : AggState)
    (devs : List RawDevice) (h : ∀ d ∈ devs, coordsParseOk d) :
    ∃ stF, processDevices net st devs = .ok stF := by
  revert h
  induction devs generalizing st with
  | nil =>
    intro h
    exact ⟨st, rfl⟩
  | cons d ds ih =>
    intro h
    obtain ⟨st', hst'⟩ := processDevice_ok_of_parse net st d (h d (List.mem_cons_self d ds))
    obtain ⟨stF, hF⟩ := ih st' (fun d' hd' => h d' (List.mem_cons_of_mem d hd'))
    refine ⟨stF, ?_⟩
    unfold processDevices
    rw [hst']
    exact hF

/-- A non-success device-inventory fetch makes
`extract_sites_with_geocoding` return `None`. -/
theorem extract_none_of_dev_fail (net : ℚ → ℚ → NetResult) (gst : GeoState)
    (tlocFetch : HttpResult (Except String TlocJson)) (s : ℕ)
    (body : Except String DevJson) (hs : s ≠ 200) :
    extract_sites_with_geocoding net gst (.resp s body) tlocFetch = .ok none := by
  simp [extract_sites_with_geocoding, get_devices, hs]

theorem alookup_none_iff {α : Type} (acc : List (String × α)) (c : String) :
    alookup acc c = none ↔ c ∉ acc.map Prod.fst := by
  induction acc with
  | nil => simp [alookup]
  | cons p rest ih =>
    obtain ⟨k, v⟩ := p
    by_cases hk : k = c
    · subst hk
      simp [alookup]
    · simp [alookup, hk, ih, Ne.symm hk]

theorem ga_alookup_same {α : Type} (acc : List (String × List α)) (k : String) (v : α) :
    alookup (groupAppend acc k v) k = some ((alookup acc k).getD [] ++ [v]) := by
  induction acc with
  | nil => simp [groupAppend, alookup]
  | cons p rest ih =>
    obtain ⟨k', vs⟩ := p
    by_cases hk : k' = k
    · subst hk
      simp [groupAppend, alookup]
    · simp [groupAppend, alookup, hk, ih]

theorem ga_alookup_ne {α : Type} (acc : List (String × List α)) (k c : String) (v : α)
    (h : c ≠ k) : alookup (groupAppend acc k v) c = alookup acc c := by
  induction acc with
  | nil => simp [groupAppend, alookup, Ne.symm h]
  | cons p rest ih =>
    obtain ⟨k', vs⟩ := p
    by_cases hk : k' = k
    · subst hk
      simp [groupAppend, alookup, Ne.symm h]
    · simp [groupAppend, alookup, hk, ih]

theorem ga_keys {α : Type} (acc : List (String × List α)) (k : String) (v : α) :
    (groupAppend acc k v).map Prod.fst =
      if (alookup acc k).isSome then acc.map Prod.fst
      else acc.map Prod.fst ++ [k] := by
  induction acc with
  | nil => simp [groupAppend, alookup]
  | cons p rest ih =>
    obtain ⟨k', vs⟩ := p
    by_cases hk : k' = k
    · subst hk
      simp [groupAppend, alookup]
    · by_cases hs : (alookup rest k).isSome
      · simp [groupAppend, alookup, hk, ih, hs]
      · simp [groupAppend, alookup, hk, ih, hs]

theorem mem_alookup_of_nodup {α : Type} (acc : List (String × α)) (c : String) (l : α)
    (hnd : (acc.map Prod.fst).Nodup) (hmem : (c, l) ∈ acc) :
    alookup acc c = some l := by
  induction acc with
  | nil => simp at hmem
  | cons p rest ih =>
    obtain ⟨k, v⟩ := p
    rw [List.map_cons, List.nodup_cons] at hnd
    rcases List.mem_cons.mp hmem with heq | hmem'
    · rw [Prod.mk.injEq] at heq
      obtain ⟨hk, hv⟩ := heq
      subst hk
      subst hv
      simp [alookup]
    · by_cases hk : k = c
      · subst hk
        exact absurd (List.mem_map_of_mem Prod.fst hmem') hnd.1
      · simp only [alookup, if_neg hk]
        exact ih hnd.2 hmem'

/-- Invariant of the `defaultdict(list)` grouping fold: keys are unique
and each key's list holds the values from the processed prefix with that
key, in encounter order. -/
def groupedOk (xs : List (String × String)) (acc : List (String × List String)) : Prop :=
  (acc.map Prod.fst).Nodup ∧
  ∀ c, (alookup acc c).getD [] = (xs.filter (fun p => p.1 == c)).map Prod.snd

theorem groupedOk_step (xs : List (String × String))
    (acc : List (String × List String)) (k v : String) (h : groupedOk xs acc) :
    groupedOk (xs ++ [(k, v)]) (groupAppend acc k v) := by
  obtain ⟨hnd, hchar⟩ := h
  constructor
  · rw [ga_keys]
    by_cases hs : (alookup acc k).isSome = true
    · rw [if_pos hs]
      exact hnd
    · rw [if_neg hs]
      have hnone : alookup acc k = none := by
        cases halo : alookup acc k with
        | none => rfl
        | some w => rw [halo] at hs; exact absurd rfl hs
      have hk : k ∉ acc.map Prod.fst := (alookup_none_iff acc k).mp hnone
      simp [List.nodup_append, hnd, hk]
  · intro c
    by_cases hc : c = k
    · subst hc
      rw [ga_alookup_same, Option.getD_some, hchar c, List.filter_append,
        List.map_append]
      simp
    · rw [ga_alookup_ne _ _ _ _ hc, hchar c, List.filter_append]
      have hdrop : List.filter (fun p => p.1 == c) [(k, v)] = [] := by
        simp [Ne.symm hc]
      rw [hdrop, List.append_nil]

theorem groupedOk_fold (ys : List (String × String)) :
    ∀ (xs : List (String × String)) (acc : List (String × List String)),
      groupedOk xs acc →
      groupedOk (xs ++ ys) (ys.foldl (fun a p => groupAppend a p.1 p.2) acc) := by
  induction ys with
  | nil =>
    intro xs acc h
    simpa using h
  | cons y ys ih =>
    intro xs acc h
    have h1 : groupedOk (xs ++ [y]) (groupAppend acc y.1 y.2) :=
      groupedOk_step xs acc y.1 y.2 h
    have h2 := ih (xs ++ [y]) (groupAppend acc y.1 y.2) h1
    rw [show xs ++ y :: ys = (xs ++ [y]) ++ ys by rw [List.append_assoc]; rfl]
    exact h2

/-- Each group of `groupFold xs` holds exactly the values of `xs` with
that key, in `xs` order. -/
theorem groupFold_mem (xs : List (String × String)) (c : String) (l : List String)
    (h : (c, l) ∈ groupFold xs) :
    l = (xs.filter (fun p => p.1 == c)).map Prod.snd := by
  have h0 : groupedOk [] [] := ⟨List.nodup_nil, fun _ => rfl⟩
  have hg : groupedOk xs (groupFold xs) := by
    have hfold := groupedOk_fold xs [] [] h0
    simpa [groupFold] using hfold
  obtain ⟨hnd, hchar⟩ := hg
  have hl := mem_alookup_of_nodup _ c l hnd h
  have hc := hchar c
  rw [hl, Option.getD_some] at hc
  exact hc

instance : IsTotal (String × List String) (fun a b => a.1 ≤ b.1) :=
  ⟨fun a b => le_total a.1 b.1⟩

instance : IsTrans (String × List String) (fun a b => a.1 ≤ b.1) :=
  ⟨fun _ _ _ hab hbc => le_trans hab hbc⟩

/-! ### Claim theorems -/

/-- Claim C1: once a device whose type is one of the three control-plane
roles (`vmanage`, `vsmart`, `vbond`) has been processed for a site, that
site's `site_type` is `"control_plane"` in the final state no matter what
devices follow; in particular a control-role device arriving after the
site was already `"branch"` flips it to `"control_plane"` (the prefix
`devs1` and starting state `st0` are arbitrary). -/
theorem c1_control_plane_sticky (net : ℚ → ℚ → NetResult) (st0 : AggState)
    (devs1 : List RawDevice) (dc : RawDevice) (devs2 : List RawDevice)
    (stF : AggState) (k : String)
    (h : processDevices net st0 (devs1 ++ dc :: devs2) = .ok stF)
    (hk : dc.site_id.getD "unknown" = k)
    (hc : isControlDevice dc = true) :
    ∃ s, alookup stF.sites k = some s ∧ s.site_type = "control_plane" := by
  rw [processDevices_append] at h
  cases h1 : processDevices net st0 devs1 with
  | error e => rw [h1] at h; exact absurd h (by simp)
  | ok st1 =>
    simp only [h1] at h
    unfold processDevices at h
    cases h2 : processDevice net st1 dc with
    | error e => rw [h2] at h; exact absurd h (by simp)
    | ok st2 =>
      simp only [h2] at h
      have htype : (getSite st2.sites k).site_type = "control_plane" := by
        rw [processDevice_site_type net st1 dc st2 h2 k, if_pos hk,
          classify_site_type, if_pos hc]
      have hF := processDevices_preserve_control net st2 devs2 stF k h htype
      cases ha : alookup stF.sites k with
      | none =>
        rw [getSite, ha] at hF
        exact absurd hF (by simp [defaultSite])
      | some s =>
        refine ⟨s, rfl, ?_⟩
        rw [getSite, ha] at hF
        simpa using hF

/-- Witness for C1: site 200 sees `vedge`, `vmanage`, `vedge` in that
order and ends `"control_plane"`. -/
theorem c1_control_plane_sticky_witness :
    ∃ s, alookup c1FinalState.sites "200" = some s ∧ s.site_type = "control_plane" :=
  c1_control_plane_sticky netTimeout initAgg [devBranchA] devControl [devBranchB]
    c1FinalState "200" rfl rfl rfl

/-- Claim C2: for every site of the final mapping of a run, the
representative `location` is the location of the first member device (in
input order) that carries one, `geocoded_location` is that location's
geocoded form, and — second conjunct — a site that already has a
representative location never has it overridden or its geocoded form
changed by any later device-loop step. -/
theorem c2_first_location_wins (net : ℚ → ℚ → NetResult) (devs : List RawDevice)
    (stF : AggState) (h : processDevices net initAgg devs = .ok stF)
    (k : String) (s : Site) (hs : alookup stF.sites k = some s) :
    (s.location = (s.devices.filterMap DeviceInfo.location).head? ∧
     s.geocoded_location = s.location.map LocationInfo.geocoded) ∧
    (∀ (st st' : AggState) (d : RawDevice) (k' : String) (li : LocationInfo),
      processDevice net st d = .ok st' →
      (getSite st.sites k').location = some li →
      (getSite st'.sites k').location = some li ∧
      (getSite st'.sites k').geocoded_location =
        (getSite st.sites k').geocoded_location) := by
  constructor
  · have hinv0 : ∀ k0, locInv (getSite initAgg.sites k0) := by
      intro k0
      exact ⟨rfl, rfl⟩
    have hF := processDevices_locInv net initAgg devs stF h hinv0 k
    simpa [locInv, getSite, hs] using hF
  · intro st st' d k' li hd hsome
    exact processDevice_keeps_location net st d st' k' li hd hsome

/-- Witness for C2 at a one-device run on site 100. -/
theorem c2_first_location_wins_witness :
    c2Site.location = (c2Site.devices.filterMap DeviceInfo.location).head? ∧
    c2Site.geocoded_location = c2Site.location.map LocationInfo.geocoded :=
  (c2_first_location_wins netTimeout [devNoCoords] ⟨[("100", c2Site)], ⟨[]⟩⟩ rfl
    "100" c2Site rfl).1

/-- Counterexample to C3: a cache-miss lookup that fails with a
non-success status (here 404, one network call issued) returns the
synthetic fallback location but logs NO warning — the warning is printed
only by the `except` block, which a non-200 status never reaches, so the
claim "logs a warning ... whenever the lookup fails by transport error,
non-success status, or parse error" is false. -/
theorem c3_counterexample :
    (reverse_geocode_nominatim net404 ⟨[]⟩ 1 2).warnings = [] ∧
    (reverse_geocode_nominatim net404 ⟨[]⟩ 1 2).networkCalls = 1 ∧
    (reverse_geocode_nominatim net404 ⟨[]⟩ 1 2).loc = fallbackLocation 1 2 :=
  ⟨rfl, rfl, rfl⟩

/-- Claim C3 (amended): on a cache miss, a transport error or a parse
error of a 200 response logs one warning naming the coordinate pair and
the error; a non-success status logs no warning; in all three failure
cases the call returns the synthetic `GeoLocation` built purely from the
raw coordinates (`formatted_address` exactly `"{lat}, {lon}"`, city
`"Unknown City"`), leaves the cache untouched, and — the model being a
total function — lets no exception escape. -/
theorem c3_failure_paths (net : ℚ → ℚ → NetResult) (st : GeoState) (lat lon : ℚ)
    (hmiss : alookup st.cache (lat, lon) = none) :
    (∀ msg, net lat lon = .exn msg →
      reverse_geocode_nominatim net st lat lon =
        ⟨fallbackLocation lat lon, st, 1, [geocodeWarning lat lon msg]⟩) ∧
    (∀ msg, net lat lon = .resp 200 (.error msg) →
      reverse_geocode_nominatim net st lat lon =
        ⟨fallbackLocation lat lon, st, 1, [geocodeWarning lat lon msg]⟩) ∧
    (∀ status body, net lat lon = .resp status body → status ≠ 200 →
      reverse_geocode_nominatim net st lat lon =
        ⟨fallbackLocation lat lon, st, 1, []⟩) ∧
    (fallbackLocation lat lon).formatted_address =
      reprFloat lat ++ ", " ++ reprFloat lon ∧
    (fallbackLocation lat lon).city = "Unknown City" := by
  refine ⟨?_, ?_, ?_, rfl, rfl⟩
  · intro msg hnet
    simp [reverse_geocode_nominatim, hmiss, hnet]
  · intro msg hnet
    simp [reverse_geocode_nominatim, hmiss, hnet]
  · intro status body hnet hstatus
    simp [reverse_geocode_nominatim, hmiss, hnet, hstatus]

/-- Witness for C3 at a timeout on a fresh cache. -/
theorem c3_failure_paths_witness :
    reverse_geocode_nominatim netTimeout ⟨[]⟩ 1 2 =
      ⟨fallbackLocation 1 2, ⟨[]⟩, 1, [geocodeWarning 1 2 "timeout"]⟩ :=
  (c3_failure_paths netTimeout ⟨[]⟩ 1 2 rfl).1 "timeout" rfl

/-- Claim C4: after a cache-miss call whose lookup succeeds, the result
is cached under the coordinate pair; a second call on the same pair is a
pure cache hit — zero network calls, no warnings, identical result, state
unchanged; and (last two conjuncts) a cache entry, once present, is never
invalidated or overwritten by any later geocoding call or any later part
of the device loop. -/
theorem c4_cache_hit (net : ℚ → ℚ → NetResult) (st : GeoState) (lat lon : ℚ)
    (data : NomData)
    (hmiss : alookup st.cache (lat, lon) = none)
    (hnet : net lat lon = .resp 200 (.ok data)) :
    alookup (reverse_geocode_nominatim net st lat lon).state.cache (lat, lon) =
      some (reverse_geocode_nominatim net st lat lon).loc ∧
    reverse_geocode_nominatim net (reverse_geocode_nominatim net st lat lon).state lat lon =
      ⟨(reverse_geocode_nominatim net st lat lon).loc,
       (reverse_geocode_nominatim net st lat lon).state, 0, []⟩ ∧
    (∀ (net2 : ℚ → ℚ → NetResult) (st2 : GeoState) (la lo : ℚ) (key : ℚ × ℚ)
       (g : GeoLocation), alookup st2.cache key = some g →
      alookup (reverse_geocode_nominatim net2 st2 la lo).state.cache key = some g) ∧
    (∀ (net2 : ℚ → ℚ → NetResult) (stA stB : AggState) (ds : List RawDevice)
       (key : ℚ × ℚ) (g : GeoLocation),
      processDevices net2 stA ds = .ok stB → alookup stA.geo.cache key = some g →
      alookup stB.geo.cache key = some g) := by
  have hcall : reverse_geocode_nominatim net st lat lon =
      ⟨buildLocation data, ⟨st.cache ++ [((lat, lon), buildLocation data)]⟩, 1, []⟩ := by
    simp [reverse_geocode_nominatim, hmiss, hnet]
  have hhit : alookup (st.cache ++ [((lat, lon), buildLocation data)]) (lat, lon) =
      some (buildLocation data) := by
    rw [alookup_append_none st.cache _ _ hmiss]
    simp [alookup]
  refine ⟨?_, ?_, ?_, ?_⟩
  · rw [hcall]
    exact hhit
  · rw [hcall]
    simp [reverse_geocode_nominatim, hhit]
  · intro net2 st2 la lo key g hg
    exact reverse_geocode_cache_mono net2 st2 la lo key g hg
  · intro net2 stA stB ds key g hrun hg
    exact processDevices_cache_mono net2 stA ds stB key g hrun hg

/-- Witness for C4 with a concrete successful San Francisco lookup. -/
theorem c4_cache_hit_witness :
    alookup (reverse_geocode_nominatim netSF ⟨[]⟩ (37.7749 : ℚ)
        (-122.4194 : ℚ)).state.cache ((37.7749 : ℚ), (-122.4194 : ℚ)) =
      some (reverse_geocode_nominatim netSF ⟨[]⟩ (37.7749 : ℚ) (-122.4194 : ℚ)).loc :=
  (c4_cache_hit netSF ⟨[]⟩ (37.7749 : ℚ) (-122.4194 : ℚ) sfData rfl rfl).1

/-- Counterexample to C5: on the successful-lookup path with a response
carrying no address components, `country_code` and `postcode` fall back
to the EMPTY string — so the claim that every absent component yields a
non-empty fallback value is false. -/
theorem c5_counterexample :
    (reverse_geocode_nominatim netOkBare ⟨[]⟩ 1 2).loc.country_code = "" ∧
    (reverse_geocode_nominatim netOkBare ⟨[]⟩ 1 2).loc.postcode = "" ∧
    (reverse_geocode_nominatim netOkBare ⟨[]⟩ 1 2).networkCalls = 1 :=
  ⟨rfl, rfl, rfl⟩

/-- Claim C5 (amended): every returned `GeoLocation` is structurally
fully populated (the record type has all seven fields on every path);
when address components are absent, `display_name`, `city`, `state`,
`country` and `formatted_address` receive non-empty fallback literals,
while `country_code` and `postcode` fall back to the empty string; the
failure-path record likewise has the literal fallbacks with empty
`country_code`/`postcode`. -/
theorem c5_fields_populated (data : NomData) (lat lon : ℚ) :
    ((addrOf data).city = none → (addrOf data).town = none →
      (addrOf data).village = none → (addrOf data).hamlet = none →
      (buildLocation data).city = "Unknown City") ∧
    ((addrOf data).state = none → (addrOf data).province = none →
      (buildLocation data).state = "Unknown State") ∧
    ((addrOf data).country = none → (buildLocation data).country = "Unknown Country") ∧
    (data.display_name = none → (buildLocation data).display_name = "Unknown Location") ∧
    ((addrOf data).country_code = none → (buildLocation data).country_code = "") ∧
    ((addrOf data).postcode = none → (buildLocation data).postcode = "") ∧
    ((addrOf data).city = none → (addrOf data).town = none →
      (addrOf data).village = none → (addrOf data).hamlet = none →
      (addrOf data).state = none → (addrOf data).province = none →
      (addrOf data).country = none →
      (buildLocation data).formatted_address = "Unknown Location") ∧
    (fallbackLocation lat lon).display_name ≠ "" ∧
    (fallbackLocation lat lon).city = "Unknown City" ∧
    (fallbackLocation lat lon).state = "Unknown State" ∧
    (fallbackLocation lat lon).country = "Unknown Country" ∧
    (fallbackLocation lat lon).country_code = "" ∧
    (fallbackLocation lat lon).postcode = "" := by
  refine ⟨?_, ?_, ?_, ?_, ?_, ?_, ?_, ?_, rfl, rfl, rfl, rfl, rfl⟩
  · intro h1 h2 h3 h4
    simp [buildLocation, pyOrS, h1, h2, h3, h4]
  · intro h1 h2
    simp [buildLocation, pyOrS, h1, h2]
  · intro h1
    simp [buildLocation, h1]
  · intro h1
    simp [buildLocation, h1]
  · intro h1
    simp [buildLocation, h1, pyUpper]
  · intro h1
    simp [buildLocation, h1]
  · intro h1 h2 h3 h4 h5 h6 h7
    simp [buildLocation, format_address, firstTruthy, truthyS, h1, h2, h3, h4, h5, h6, h7]
  · intro hcontra
    have h2 : "Location at " ++ reprFloat lat ++ ", " ++ reprFloat lon = "" := hcontra
    have h3 := congrArg String.data h2
    simp [String.data_append] at h3

/-- Witness for C5 on a response with no address object. -/
theorem c5_fields_populated_witness :
    (buildLocation bareData).city = "Unknown City" ∧
    (buildLocation bareData).country_code = "" :=
  ⟨(c5_fields_populated bareData 1 2).1 rfl rfl rfl rfl,
   (c5_fields_populated bareData 1 2).2.2.2.2.1 rfl⟩

/-- Counterexample to C6: a transport error in the login call is not
caught anywhere — `authenticate` raises instead of returning `False`, so
the claim that every failure (including transport errors) is signalled by
`false`/`null` without throwing is false. -/
theorem c6_counterexample :
    authenticate (.exn "ConnectionError") tokenOk = .error "ConnectionError" ∧
    get_devices (.exn "ConnectionError") = .error "ConnectionError" ∧
    get_tloc_data (.exn "ConnectionError") = .error "ConnectionError" :=
  ⟨rfl, rfl, rfl⟩

/-- Claim C6 (amended): for responses that arrive, `authenticate` returns
`True` exactly when both the login and the token call have status 200 and
returns `False` without throwing otherwise, and the two fetches return
the parsed body on 200 and `None` on any other status without throwing;
transport errors (and a 200 body that fails to parse), however, raise and
propagate — they are not converted into `false`/`null`. -/
theorem c6_failure_signalling :
    (∀ (s : ℕ) (token : HttpResult String), s ≠ 200 →
      authenticate (.resp s ()) token = .ok (false, none)) ∧
    (∀ (s2 : ℕ) (t : String),
      authenticate (.resp 200 ()) (.resp s2 t) =
        if s2 = 200 then .ok (true, some t) else .ok (false, none)) ∧
    (∀ (login : HttpResult Unit) (token : HttpResult String) (tok : Option String),
      authenticate login token = .ok (true, tok) →
      login = .resp 200 () ∧ ∃ t, token = .resp 200 t ∧ tok = some t) ∧
    (∀ (s : ℕ) (body : Except String DevJson), s ≠ 200 →
      get_devices (.resp s body) = .ok none) ∧
    (∀ j : DevJson, get_devices (.resp 200 (.ok j)) = .ok (some j)) ∧
    (∀ (s : ℕ) (body : Except String TlocJson), s ≠ 200 →
      get_tloc_data (.resp s body) = .ok none) ∧
    (∀ j : TlocJson, get_tloc_data (.resp 200 (.ok j)) = .ok (some j)) := by
  refine ⟨?_, ?_, ?_, ?_, ?_, ?_, ?_⟩
  · intro s token hs
    simp [authenticate, hs]
  · intro s2 t
    by_cases hs : s2 = 200
    · simp [authenticate, hs]
    · simp [authenticate, hs]
  · intro login token tok h
    cases login with
    | exn m => exact absurd h (by simp [authenticate])
    | resp s b =>
      cases b
      by_cases hs : s = 200
      · subst hs
        cases token with
        | exn m => exact absurd h (by simp [authenticate])
        | resp s2 t =>
          by_cases hs2 : s2 = 200
          · subst hs2
            simp [authenticate] at h
            exact ⟨rfl, t, rfl, h.symm⟩
          · simp [authenticate, hs2] at h
      · simp [authenticate, hs] at h
  · intro s body hs
    simp [get_devices, hs]
  · intro j
    simp [get_devices]
  · intro s body hs
    simp [get_tloc_data, hs]
  · intro j
    simp [get_tloc_data]

/-- Witness for C6: a 500 login response yields `False` without
raising. -/
theorem c6_failure_signalling_witness :
    authenticate (.resp 500 ()) tokenOk = .ok (false, none) :=
  c6_failure_signalling.1 500 tokenOk (by decide)

/-- Counterexample to C7: a device whose latitude is the truthy string
`"abc"` (with a parseable longitude) makes the device loop raise
`ValueError` — aggregation does not complete for arbitrary field
contents. -/
theorem c7_counterexample :
    processDevices netTimeout initAgg [devBadLat] =
      .error "ValueError: could not convert string to float" := rfl

/-- Claim C7 (amended): missing device fields are tolerated — string
attributes default to `"N/A"` and a device with absent (or falsy)
coordinates is processed without a location — and the loop completes
without raising PROVIDED every truthy latitude/longitude parses as a
float; a truthy unparseable coordinate raises `float(...)`'s
`ValueError`, which is fatal. -/
theorem c7_malformed_fields_tolerated (net : ℚ → ℚ → NetResult) (st : AggState)
    (devs : List RawDevice) (h : ∀ d ∈ devs, coordsParseOk d) :
    (∃ stF, processDevices net st devs = .ok stF) ∧
    (∀ d : RawDevice,
      baseDeviceInfo
        { d with
          host_name := none
          system_ip := none
          device_type := none
          device_model := none
          reachability := none
          version := none
          platform := none } =
        { hostname := "N/A", system_ip := "N/A", device_type := "N/A",
          device_model := "N/A", reachability := "N/A", version := "N/A",
          platform := "N/A" }) := by
  refine ⟨processDevices_ok_of_parse net st devs h, fun d => rfl⟩

/-- Witness for C7: a run over one well-formed-coordinates device
succeeds. -/
theorem c7_malformed_fields_tolerated_witness :
    ∃ stF, processDevices netTimeout initAgg [devGoodCoords] = .ok stF :=
  (c7_malformed_fields_tolerated netTimeout initAgg [devGoodCoords]
    (by intro d hd; simp at hd; subst hd; exact fun _ => ⟨rfl, rfl⟩)).1

/-- Counterexample to C8: with authentication succeeding and the device
inventory fetch failing (HTTP 500), the run stops before any report but
`main` returns normally — the process exit code is 0, the same as a fully
successful run, whereas an authentication failure exits 1.  The claim
that an inventory fetch failure affects the process exit code is
false. -/
theorem c8_counterexample :
    mainModel loginOk tokenOk dev500 tloc500 netTimeout = .extractFailed ∧
    exitCodeOf (mainModel loginOk tokenOk dev500 tloc500 netTimeout) = 0 ∧
    mainModel (.resp 401 ()) tokenOk dev500 tloc500 netTimeout = .authFailed ∧
    exitCodeOf (mainModel (.resp 401 ()) tokenOk dev500 tloc500 netTimeout) = 1 :=
  ⟨rfl, rfl, rfl, rfl⟩

/-- Claim C8 (amended): an inventory fetch failure is reported and
terminates the run without producing a report, but it does NOT affect the
process exit code — `main` falls into the
"ERROR: Failed to extract site hierarchy" branch and returns normally
(exit code 0); only an authentication failure (`sys.exit(1)`) and
uncaught exceptions give a non-zero exit. -/
theorem c8_inventory_failure_exit (login : HttpResult Unit)
    (token : HttpResult String) (tlocFetch : HttpResult (Except String TlocJson))
    (net : ℚ → ℚ → NetResult) (tok : Option String) (s : ℕ)
    (body : Except String DevJson)
    (hauth : authenticate login token = .ok (true, tok)) (hs : s ≠ 200) :
    mainModel login token (.resp s body) tlocFetch net = .extractFailed ∧
    exitCodeOf (mainModel login token (.resp s body) tlocFetch net) = 0 ∧
    (∀ (login2 : HttpResult Unit) (token2 : HttpResult String)
       (dev2 : HttpResult (Except String DevJson))
       (tloc2 : HttpResult (Except String TlocJson)) (net2 : ℚ → ℚ → NetResult)
       (x : Option String),
      authenticate login2 token2 = .ok (false, x) →
      mainModel login2 token2 dev2 tloc2 net2 = .authFailed ∧
      exitCodeOf (mainModel login2 token2 dev2 tloc2 net2) = 1) := by
  have hmain : mainModel login token (.resp s body) tlocFetch net = .extractFailed := by
    unfold mainModel
    rw [hauth, extract_none_of_dev_fail net ⟨[]⟩ tlocFetch s body hs]
  refine ⟨hmain, by rw [hmain]; rfl, ?_⟩
  intro login2 token2 dev2 tloc2 net2 x hfail
  have hmain2 : mainModel login2 token2 dev2 tloc2 net2 = .authFailed := by
    unfold mainModel
    rw [hfail]
  exact ⟨hmain2, by rw [hmain2]; rfl⟩

/-- Witness for C8 at concrete oracles (auth OK, inventory 500). -/
theorem c8_inventory_failure_exit_witness :
    mainModel loginOk tokenOk (.resp 500 (.ok ⟨none⟩)) tloc500 netTimeout =
      .extractFailed ∧
    exitCodeOf (mainModel loginOk tokenOk (.resp 500 (.ok ⟨none⟩)) tloc500 netTimeout)
      = 0 :=
  ⟨(c8_inventory_failure_exit loginOk tokenOk tloc500 netTimeout (some "tok") 500
      (.ok ⟨none⟩) rfl (by decide)).1,
   (c8_inventory_failure_exit loginOk tokenOk tloc500 netTimeout (some "tok") 500
      (.ok ⟨none⟩) rfl (by decide)).2.1⟩

/-- Claim C10: a latitude or longitude that is present but falsy (the
number 0, the empty string, or `null`) is treated exactly like an absent
coordinate pair — the step equals the step on the device with both
coordinate keys removed, no location is attached to the device record,
the site's representative location is untouched, and no geocoding state
changes (the presence test is truthiness, not key presence). -/
theorem c10_falsy_coordinates (net : ℚ → ℚ → NetResult) (st : AggState)
    (device : RawDevice)
    (h : device.latitude = some (.num 0) ∨ device.latitude = some (.str "") ∨
         device.latitude = some .null ∨ device.longitude = some (.num 0) ∨
         device.longitude = some (.str "") ∨ device.longitude = some .null) :
    processDevice net st device =
      processDevice net st { device with latitude := none, longitude := none } ∧
    processDevice net st device =
      .ok ⟨setSite st.sites (device.site_id.getD "unknown")
            (appendDevice
              (classifySiteType device
                (getSite st.sites (device.site_id.getD "unknown")))
              (baseDeviceInfo device)),
           st.geo⟩ ∧
    (baseDeviceInfo device).location = none ∧
    (appendDevice
        (classifySiteType device (getSite st.sites (device.site_id.getD "unknown")))
        (baseDeviceInfo device)).location =
      (getSite st.sites (device.site_id.getD "unknown")).location := by
  have hfalse : (jTruthy device.latitude && jTruthy device.longitude) = false := by
    rcases h with h | h | h | h | h | h <;> simp [jTruthy, h]
  refine ⟨?_, ?_, rfl, ?_⟩
  · unfold processDevice
    rw [if_neg (by simp [hfalse]), if_neg (by simp [jTruthy])]
    rfl
  · unfold processDevice
    rw [if_neg (by simp [hfalse])]
  · rw [appendDevice_location, classify_location]

/-- Counterexample to C9: two sites of one country encountered in the
order B, A produce the group line `("X", ["Site B", "Site A"])` — the
site keys within a group are printed in encounter order, not sorted (and
no per-group count is printed; only the total number of groups). -/
theorem c9_counterexample :
    (generate_location_summary cexSites).countryLines =
      [("X", ["Site B", "Site A"])] ∧
    ¬ List.Sorted (fun a b : String => a ≤ b) ["Site B", "Site A"] := by
  constructor
  · rfl
  · intro h
    have hle := List.rel_of_sorted_cons h "Site A" (by simp)
    exact absurd hle (not_le.mpr (by rw [String.lt_iff_toList_lt]; decide))

/-- Claim C9 (amended): the location summary groups the geocoded sites'
labels by country and by the `"{city}, {state}, {country}"` string; the
two headline counts are the numbers of groups; groups are ordered
lexicographically on the group label; and each group's member list is the
`"Site {key}"` labels of the sites resolving to that group, in site
encounter order (not sorted, and with no per-group count). -/
theorem c9_location_summary (sites : List (String × Site)) :
    List.Sorted (fun a b => a.1 ≤ b.1) (generate_location_summary sites).countryLines ∧
    List.Sorted (fun a b => a.1 ≤ b.1) (generate_location_summary sites).cityLines ∧
    (generate_location_summary sites).countryCount =
      (generate_location_summary sites).countryLines.length ∧
    (generate_location_summary sites).cityCount =
      (generate_location_summary sites).cityLines.length ∧
    (∀ (c : String) (l : List String),
      (c, l) ∈ (generate_location_summary sites).countryLines →
      l = ((geocodedPairs sites).filter (fun p => p.2.country == c)).map
            (fun p => "Site " ++ p.1)) ∧
    (∀ (c : String) (l : List String),
      (c, l) ∈ (generate_location_summary sites).cityLines →
      l = ((geocodedPairs sites).filter
            (fun p => (p.2.city ++ ", " ++ p.2.state ++ ", " ++ p.2.country) == c)).map
            (fun p => "Site " ++ p.1)) := by
  refine ⟨?_, ?_, ?_, ?_, ?_, ?_⟩
  · exact List.sorted_insertionSort (fun a b => a.1 ≤ b.1)
      (groupFold ((geocodedPairs sites).map fun p => (p.2.country, "Site " ++ p.1)))
  · exact List.sorted_insertionSort (fun a b => a.1 ≤ b.1)
      (groupFold ((geocodedPairs sites).map fun p =>
        (p.2.city ++ ", " ++ p.2.state ++ ", " ++ p.2.country, "Site " ++ p.1)))
  · exact (List.length_insertionSort _ _).symm
  · exact (List.length_insertionSort _ _).symm
  · intro c l hmem
    have hmem' : (c, l) ∈ groupFold
        ((geocodedPairs sites).map fun p => (p.2.country, "Site " ++ p.1)) :=
      ((List.perm_insertionSort _ _).mem_iff).mp hmem
    have hchar := groupFold_mem _ c l hmem'
    rw [List.filter_map, List.map_map] at hchar
    exact hchar
  · intro c l hmem
    have hmem' : (c, l) ∈ groupFold
        ((geocodedPairs sites).map fun p =>
          (p.2.city ++ ", " ++ p.2.state ++ ", " ++ p.2.country, "Site " ++ p.1)) :=
      ((List.perm_insertionSort _ _).mem_iff).mp hmem
    have hchar := groupFold_mem _ c l hmem'
    rw [List.filter_map, List.map_map] at hchar
    exact hchar

/-- Witness for C9 on the two-site fixture: the group of country `"X"`
lists its sites in encounter order. -/
theorem c9_location_summary_witness :
    ["Site B", "Site A"] =
      ((geocodedPairs cexSites).filter (fun p => p.2.country == "X")).map
        (fun p => "Site " ++ p.1) :=
  (c9_location_summary cexSites).2.2.2.2.1 "X" ["Site B", "Site A"]
    (show ("X", ["Site B", "Site A"]) ∈ (generate_location_summary cexSites).countryLines
      from List.mem_singleton.mpr rfl)

/-- Witness for C10: a device with latitude 0 (the equator). -/
theorem c10_falsy_coordinates_witness :
    processDevice netTimeout initAgg devZeroLat =
      processDevice netTimeout initAgg
        { devZeroLat with latitude := none, longitude := none } ∧
    (baseDeviceInfo devZeroLat).location = none :=
  ⟨(c10_falsy_coordinates netTimeout initAgg devZeroLat (Or.inl rfl)).1,
   (c10_falsy_coordinates netTimeout initAgg devZeroLat (Or.inl rfl)).2.2.1⟩

end SdwanGeo
